import Mathlib

/-!
Verification of the request/response contract of the `flask-api-chief`
HTTP service (`src/app/main.py`).  Each Flask handler is embedded as a
pure Lean function from the data it actually reads (parsed JSON body
fields, query parameters, the configured API key, the upstream HTTP
response) to a pair of a JSON response body and an HTTP status code.
Python strings are modelled as Lean `String`/`List Char`; the ASCII
whitespace class models Python's `\s` and `str.strip`/`str.split`
whitespace handling.
-/

namespace FlaskChief

/-- ASCII whitespace, modelling Python's whitespace class used by
`str.strip`, `str.split` and the regex class `\s`
(space, tab, newline, carriage return, vertical tab, form feed). -/
def isPySpace (c : Char) : Bool :=
  c == ' ' || c == '\t' || c == '\n' || c == '\r' || c == Char.ofNat 11 || c == Char.ofNat 12

/-- Sentence-ending punctuation of the summarizer's regex class `[.!?]`. -/
def isSentEnd (c : Char) : Bool :=
  c == '.' || c == '!' || c == '?'

theorem dropWhile_len_le (p : Char → Bool) (l : List Char) :
    (l.dropWhile p).length ≤ l.length :=
  (List.dropWhile_sublist p).length_le

/-- Worker for Python `str.split()`: `acc` holds the current word
reversed; whitespace ends the current word (emitting it when nonempty),
any other character extends it. -/
def pySplitAux : List Char → List Char → List (List Char)
  | [], acc => if acc.isEmpty then [] else [acc.reverse]
  | c :: rest, acc =>
    if isPySpace c then
      if acc.isEmpty then pySplitAux rest []
      else acc.reverse :: pySplitAux rest []
    else pySplitAux rest (c :: acc)

/-- Python `str.split()` (no separator): split on runs of whitespace,
discarding empty pieces. -/
def pySplit (l : List Char) : List (List Char) :=
  pySplitAux l []

/-- Python `" ".join`: concatenate pieces with a single space between
consecutive pieces. -/
def joinSpace : List (List Char) → List Char
  | [] => []
  | [w] => w
  | w :: ws => w ++ ' ' :: joinSpace ws

/-- Removal of the maximal whitespace suffix (the right half of Python
`str.strip()`). -/
def rstrip : List Char → List Char
  | [] => []
  | c :: rest =>
    let r := rstrip rest
    if r.isEmpty && isPySpace c then [] else c :: r

/-- Python `str.strip()`: remove leading and trailing whitespace. -/
def pyStrip (l : List Char) : List Char :=
  rstrip (l.dropWhile isPySpace)

/-- Spec-side description of the `strip` transform mode: every maximal
internal whitespace run becomes a single space (applied after trimming). -/
def collapseRuns (l : List Char) : List Char :=
  match l with
  | [] => []
  | c :: rest =>
    if isPySpace c then ' ' :: collapseRuns (rest.dropWhile isPySpace)
    else c :: collapseRuns rest
termination_by l.length
decreasing_by
  · simp only [List.length_cons]
    exact Nat.lt_succ_of_le (dropWhile_len_le _ _)
  · simp only [List.length_cons]; omega

/-- Spec-side description of `" ".join(text.split())`: trim the ends,
then collapse each internal whitespace run to one space. -/
def collapseWs (l : List Char) : List Char :=
  collapseRuns (pyStrip l)

/-- Worker for the summarizer's `re.split(r'(?<=[.!?])\s+', text)`:
`acc` holds the current unit reversed, so its head is the character
immediately preceding the scan position (the regex lookbehind), and
`inSep` records whether the scan is inside a separator whitespace run.
A maximal whitespace run whose first character directly follows `.`,
`!` or `?` is a separator; all other characters extend the current
unit. -/
def splitSentAux : List Char → List Char → Bool → List (List Char)
  | [], acc, _ => [acc.reverse]
  | c :: rest, acc, inSep =>
    if inSep then
      if isPySpace c then splitSentAux rest acc true
      else splitSentAux rest [c] false
    else if isPySpace c && (match acc with | p :: _ => isSentEnd p | [] => false) then
      acc.reverse :: splitSentAux rest [] true
    else
      splitSentAux rest (c :: acc) false

/-- `re.split(r'(?<=[.!?])\s+', l)`: split at each run of whitespace
that immediately follows sentence-ending punctuation. -/
def splitSentences (l : List Char) : List (List Char) :=
  splitSentAux l [] false

/-- Python list slice `l[:n]` for an arbitrary (possibly negative)
integer bound: a nonnegative bound keeps the first `n` elements, a
negative bound drops the last `-n` elements (clipped at zero). -/
def pySliceTo {α : Type} (l : List α) (n : Int) : List α :=
  if 0 ≤ n then l.take n.toNat
  else l.take (l.length - (-n).toNat)

/-- JSON values, as produced by `jsonify` and by the body parsers. -/
inductive Json where
  | null : Json
  | bool (b : Bool) : Json
  | num (n : Int) : Json
  | str (s : String) : Json
  | arr (elts : List Json) : Json
  | obj (fields : List (String × Json)) : Json

/-- `dict.get(k)` on a JSON object: the value at key `k`, or `null`
when the key is absent. (The handlers below only apply it to parsed
JSON objects.) -/
def Json.get (j : Json) (k : String) : Json :=
  match j with
  | .obj fs =>
    match fs.find? (fun kv => kv.1 == k) with
    | some kv => kv.2
    | none => .null
  | _ => .null

/-- A handler's result: JSON body and HTTP status code, as in
`return jsonify(...), code`. -/
def Response := Json × Nat

/-- Scalar JSON values that can appear in a request field, used to model
`int(payload.get("max_sentences", 3))` over arbitrary JSON input.
A finite IEEE-754 double is represented exactly: every finite double is
the dyadic rational `m * 2^e` with integers `m`, `e`, and `jfloat m e`
carries that exact value. The non-finite doubles Python's JSON parser
may also yield (`Infinity`, `-Infinity`, `NaN`) are `jinf`/`jnan`. -/
inductive JVal where
  | jnull : JVal
  | jbool (b : Bool) : JVal
  | jint (n : Int) : JVal
  | jstr (s : String) : JVal
  | jfloat (m : Int) (e : Int) : JVal
  | jinf : JVal
  | jnan : JVal
  | jarr : JVal
  | jobj : JVal

/-- Value of a digit run with PEP 515 underscore grouping, as accepted
by Python `int(str)` after the optional sign: a leading digit, then
digits optionally separated by single underscores (`1_000`); a leading,
trailing or doubled underscore is invalid (`none`). `acc` is the value
of the digits already read. -/
def digitsValAux : List Char → Nat → Option Nat
  | [], acc => some acc
  | '_' :: c :: rest, acc =>
    if c.isDigit then digitsValAux rest (acc * 10 + (c.toNat - 48)) else none
  | ['_'], _ => none
  | c :: rest, acc =>
    if c.isDigit then digitsValAux rest (acc * 10 + (c.toNat - 48)) else none

/-- Value of a nonempty underscore-grouped digit run (must start with a
digit), `none` otherwise. -/
def digitsVal : List Char → Option Nat
  | [] => none
  | c :: rest =>
    if c.isDigit then digitsValAux rest (c.toNat - 48) else none

/-- Python `int(s)` on a string: surrounding whitespace is ignored, an
optional sign precedes a nonempty digit run with PEP 515 underscore
grouping; anything else raises. -/
def pyParseInt (s : String) : Option Int :=
  match pyStrip s.data with
  | '+' :: ds => (digitsVal ds).map Int.ofNat
  | '-' :: ds => (digitsVal ds).map (fun n => -(Int.ofNat n))
  | ds => (digitsVal ds).map Int.ofNat

/-- Python `int(v)` on a JSON value: integers pass through, booleans
become 0/1, numeric strings are parsed, a finite float `m * 2^e` is
truncated toward zero (`Int.tdiv` is truncating division), and
everything else raises (`none`) — including infinities and NaN, whose
`int(...)` raises `OverflowError`/`ValueError`. -/
def pyToInt : JVal → Option Int
  | .jint n => some n
  | .jbool b => some (if b then 1 else 0)
  | .jstr s => pyParseInt s
  | .jfloat m e =>
    some (if 0 ≤ e then m * 2 ^ e.toNat else Int.tdiv m (2 ^ (-e).toNat))
  | _ => none

/-- Python `str.upper()` (ASCII model). -/
def pyUpperS (s : String) : String := String.mk (s.data.map Char.toUpper)

/-- Python `str.lower()` (ASCII model). -/
def pyLowerS (s : String) : String := String.mk (s.data.map Char.toLower)

/-- The JSON body of a `/transform` request: the two fields the handler
reads, each absent when the key is missing from the payload. -/
structure TransformReq where
  text : Option String
  mode : Option String

/-- The `/transform` handler (`transform` in `src/app/main.py`):
`text` defaults to `""`, `mode` defaults to `"upper"` and is lowercased;
`upper`/`lower` case-fold, `strip` is `" ".join(text.split())`, any
other mode is a 400 error. -/
def transform (p : TransformReq) : Response :=
  let text := p.text.getD ""
  let mode := pyLowerS (p.mode.getD "upper")
  if mode = "upper" then
    (Json.obj [("original", .str text), ("result", .str (pyUpperS text)),
      ("mode", .str mode)], 200)
  else if mode = "lower" then
    (Json.obj [("original", .str text), ("result", .str (pyLowerS text)),
      ("mode", .str mode)], 200)
  else if mode = "strip" then
    (Json.obj [("original", .str text),
      ("result", .str (String.mk (joinSpace (pySplit text.data)))),
      ("mode", .str mode)], 200)
  else
    (Json.obj [("error", .str "invalid mode")], 400)

/-- The `/echo` handler: wrap whatever the body parser yielded. -/
def echo (data : Json) : Response :=
  (Json.obj [("you_sent", data), ("status", Json.str "success")], 200)

/-- The upstream weather API's reply: HTTP status, raw body text
(`resp.text`), and parsed JSON body (`resp.json()`). -/
structure UpstreamResp where
  status : Nat
  text : String
  json : Json

/-- The `/weather` handler (`weather` in `src/app/main.py`), as a
function of the `city` query parameter, the configured
`OPENWEATHER_API_KEY`, and the upstream response the outbound call
would produce.  `none`/`""` are both falsy for `not city` /
`not OPENWEATHER_KEY`. The `units` parameter only shapes the outbound
request, which is abstracted by `up` being arbitrary. -/
def weather (city : Option String) (key : Option String)
    (up : UpstreamResp) : Response :=
  if city.getD "" = "" then
    (Json.obj [("error", Json.str "missing 'city' parameter")], 400)
  else if key.getD "" = "" then
    (Json.obj [("error", Json.str "OPENWEATHER_API_KEY not configured on server")], 500)
  else if up.status ≠ 200 then
    (Json.obj [("error", Json.str "failed to fetch weather"),
      ("details", Json.str up.text)], up.status)
  else
    (Json.obj [("city", up.json.get "name"), ("weather", up.json.get "weather"),
      ("main", up.json.get "main"), ("raw", up.json)], 200)

/-- `naive_summary` from `src/app/main.py`: split the stripped text with
`re.split(r'(?<=[.!?])\s+', ...)`, keep the slice `parts[:max_sentences]`,
join with single spaces (with the truthiness guard `if parts else ""`). -/
def naive_summary (text : String) (max_sentences : Int) : String :=
  let parts := splitSentences (pyStrip text.data)
  if parts.isEmpty then "" else String.mk (joinSpace (pySliceTo parts max_sentences))

/-- The JSON body of a `/summarize` request: the `text` field (absent or
a string) and the `max_sentences` field (absent or any scalar JSON
value). -/
structure SummarizeReq where
  text : Option String
  max_sentences : Option JVal

/-- The `/summarize` handler: empty/missing `text` is a 400 error;
`max_sentences` defaults to 3 and falls back to 3 when `int(...)`
raises; the 200 body reports the summary, `len(summary.split())` and
the limit used. -/
def summarize (p : SummarizeReq) : Response :=
  let text := p.text.getD ""
  if text = "" then
    (Json.obj [("error", Json.str "missing 'text' in body")], 400)
  else
    let max_s : Int :=
      match p.max_sentences with
      | none => 3
      | some v => (pyToInt v).getD 3
    let summary := naive_summary text max_s
    (Json.obj [("summary", Json.str summary),
      ("length", Json.num (pySplit summary.data).length),
      ("max_sentences", Json.num max_s)], 200)

/-- The static `OPENAPI_SPEC` dictionary from `src/app/main.py`. -/
def OPENAPI_SPEC : Json :=
  .obj [
    ("openapi", .str "3.0.0"),
    ("info", .obj [("title", .str "Flask Chief API"), ("version", .str "1.0.0")]),
    ("paths", .obj [
      ("/", .obj [("get", .obj [("summary", .str "Root"),
        ("responses", .obj [("200", .obj [("description", .str "OK")])])])]),
      ("/health", .obj [("get", .obj [("summary", .str "Health"),
        ("responses", .obj [("200", .obj [("description", .str "OK")])])])]),
      ("/time", .obj [("get", .obj [("summary", .str "Server time"),
        ("responses", .obj [("200", .obj [("description", .str "OK")])])])]),
      ("/transform", .obj [("post", .obj [("summary", .str "Transform text"),
        ("responses", .obj [("200", .obj [("description", .str "OK")])])])]),
      ("/weather", .obj [("get", .obj [("summary", .str "Weather (requires key)"),
        ("responses", .obj [("200", .obj [("description", .str "OK")])])])]),
      ("/summarize", .obj [("post", .obj [("summary", .str "Summarize text"),
        ("responses", .obj [("200", .obj [("description", .str "OK")])])])])])]

/-- The `/openapi.json` handler: it reads nothing from the request
(modelled by an arbitrary-typed ignored argument) and returns the static
document. -/
def openapi {α : Type} (_req : α) : Response :=
  (OPENAPI_SPEC, 200)

/-! ## Supporting lemmas -/

theorem splitSentAux_ne_nil (l : List Char) :
    ∀ (acc : List Char) (b : Bool), splitSentAux l acc b ≠ [] := by
  induction l with
  | nil => intro acc b; simp [splitSentAux]
  | cons c rest ih =>
    intro acc b
    simp only [splitSentAux]
    split
    · split
      · exact ih acc true
      · exact ih [c] false
    · split
      · simp
      · exact ih (c :: acc) false

/-- `re.split` never returns an empty list, so the truthiness guard in
`naive_summary` always takes the join branch. -/
theorem naive_summary_eq (t : String) (m : Int) :
    naive_summary t m =
      String.mk (joinSpace (pySliceTo (splitSentences (pyStrip t.data)) m)) := by
  have h : splitSentences (pyStrip t.data) ≠ [] :=
    splitSentAux_ne_nil (pyStrip t.data) [] false
  simp only [naive_summary]
  rw [if_neg (by simpa [List.isEmpty_iff] using h)]

/-! ## Claims -/

/-- C6: for every JSON body `B`, `POST /echo` returns
`{you_sent: B, status: "success"}` with status 200; in particular a
missing/null body is wrapped unchanged rather than rejected. -/
theorem echo_roundtrip :
    (∀ B : Json,
      echo B = (Json.obj [("you_sent", B), ("status", Json.str "success")], 200)) ∧
    echo Json.null =
      (Json.obj [("you_sent", Json.null), ("status", Json.str "success")], 200) :=
  ⟨fun _ => rfl, rfl⟩

/-- C7: `GET /openapi.json` is a constant function of the request: any
two requests receive the identical static document, with status 200. -/
theorem openapi_constant {α β : Type} (r1 : α) (r2 : β) :
    openapi r1 = openapi r2 ∧ (openapi r1).2 = 200 ∧ (openapi r1).1 = OPENAPI_SPEC :=
  ⟨rfl, rfl, rfl⟩

/-- C9: when both the `city` parameter is missing and the API key is
not configured, the missing-city check wins: the response is the 400
missing-city error, never 500. -/
theorem weather_missing_city_precedence (up : UpstreamResp) :
    weather none none up =
      (Json.obj [("error", Json.str "missing 'city' parameter")], 400) ∧
    (weather none none up).2 ≠ 500 := by
  refine ⟨rfl, ?_⟩
  intro h
  simp [weather] at h

/-- C5: `GET /weather` without a `city` parameter yields status 400,
and with a city but no configured key (unset or empty) yields status
500; both error bodies are JSON objects carrying an `error` key. -/
theorem weather_missing_city_and_key_errors :
    (∀ (key : Option String) (up : UpstreamResp),
      weather none key up =
        (Json.obj [("error", Json.str "missing 'city' parameter")], 400)) ∧
    (∀ (city : String) (key : Option String) (up : UpstreamResp),
      city ≠ "" → (key = none ∨ key = some "") →
      weather (some city) key up =
        (Json.obj [("error",
          Json.str "OPENWEATHER_API_KEY not configured on server")], 500)) := by
  constructor
  · intro key up; rfl
  · intro city key up hc hk
    rcases hk with h | h <;> subst h <;> simp [weather, hc]

theorem weather_missing_city_and_key_errors_witness :
    ("London" : String) ≠ "" ∧
    weather (some "London") none ⟨200, "", Json.null⟩ =
      (Json.obj [("error",
        Json.str "OPENWEATHER_API_KEY not configured on server")], 500) :=
  ⟨by decide,
    weather_missing_city_and_key_errors.2 "London" none ⟨200, "", Json.null⟩
      (by decide) (Or.inl rfl)⟩

/-- C1 (counterexample): with a city and a key configured and an
upstream 404 whose body is `"city not found"`, the handler forwards the
status code but the response body is NOT the upstream body verbatim: it
is the JSON object `{error: "failed to fetch weather", details: <body>}`. -/
theorem weather_upstream_body_not_verbatim_cex :
    (weather (some "London") (some "k") ⟨404, "city not found", Json.null⟩).2 = 404 ∧
    (weather (some "London") (some "k") ⟨404, "city not found", Json.null⟩).1 =
      Json.obj [("error", Json.str "failed to fetch weather"),
        ("details", Json.str "city not found")] ∧
    (weather (some "London") (some "k") ⟨404, "city not found", Json.null⟩).1 ≠
      Json.str "city not found" := by
  refine ⟨rfl, rfl, ?_⟩
  intro h
  exact Json.noConfusion h

/-- C1 (amended): on a non-200 upstream response the handler returns
the upstream status code together with the JSON body
`{error: "failed to fetch weather", details: <upstream body text>}` —
the upstream body is embedded under `details`, not forwarded verbatim. -/
theorem weather_upstream_error_forwarding (city key : String) (up : UpstreamResp)
    (hc : city ≠ "") (hk : key ≠ "") (hs : up.status ≠ 200) :
    weather (some city) (some key) up =
      (Json.obj [("error", Json.str "failed to fetch weather"),
        ("details", Json.str up.text)], up.status) := by
  simp [weather, hc, hk, hs]

theorem weather_upstream_error_forwarding_witness :
    ("London" : String) ≠ "" ∧ ("k" : String) ≠ "" ∧ (404 : Nat) ≠ 200 ∧
    weather (some "London") (some "k") ⟨404, "nope", Json.null⟩ =
      (Json.obj [("error", Json.str "failed to fetch weather"),
        ("details", Json.str "nope")], 404) :=
  ⟨by decide, by decide, by decide,
    weather_upstream_error_forwarding "London" "k" ⟨404, "nope", Json.null⟩
      (by decide) (by decide) (by decide)⟩

/-- C2: for positive `N`, `naive_summary` splits the stripped text at
each whitespace run following `.`, `!` or `?` (the `splitSentences`
model of the regex) and joins the first `N` units with single spaces;
on `"Hello. World. Foo. Bar."` with `max_sentences = 2` the summary is
`"Hello. World."`. -/
theorem summarize_first_n_sentences :
    (∀ (text : String) (N : Nat), 0 < N →
      naive_summary text (Int.ofNat N) =
        String.mk (joinSpace ((splitSentences (pyStrip text.data)).take N))) ∧
    naive_summary "Hello. World. Foo. Bar." 2 = "Hello. World." := by
  constructor
  · intro text N _
    rw [naive_summary_eq]
    simp [pySliceTo]
  · rfl

theorem summarize_first_n_sentences_witness :
    0 < 2 ∧
    naive_summary "A! B? C." (Int.ofNat 2) =
      String.mk (joinSpace ((splitSentences (pyStrip "A! B? C.".data)).take 2)) :=
  ⟨by decide, summarize_first_n_sentences.1 "A! B? C." 2 (by decide)⟩

theorem naive_summary_zero (t : String) : naive_summary t 0 = "" := by
  rw [naive_summary_eq]
  simp [pySliceTo, joinSpace]

theorem naive_summary_neg (t : String) (k : Nat) (hk : 0 < k) :
    naive_summary t (-(k : Int)) =
      String.mk (joinSpace ((splitSentences (pyStrip t.data)).take
        ((splitSentences (pyStrip t.data)).length - k))) := by
  rw [naive_summary_eq]
  have h : ¬ (0 : Int) ≤ -(k : Int) := by omega
  simp [pySliceTo, h]

/-- C4: `POST /summarize` rejects a missing or empty `text` with 400;
otherwise `max_sentences` defaults to 3, non-coercible values silently
fall back to 3, coercible values are used as given, and the 200 body
reports the summary, its word count as `length`, and the limit used. -/
theorem summarize_validation_and_coercion :
    (∀ ms : Option JVal, summarize ⟨none, ms⟩ =
      (Json.obj [("error", Json.str "missing 'text' in body")], 400)) ∧
    (∀ ms : Option JVal, summarize ⟨some "", ms⟩ =
      (Json.obj [("error", Json.str "missing 'text' in body")], 400)) ∧
    (∀ t : String, t ≠ "" → summarize ⟨some t, none⟩ =
      (Json.obj [("summary", Json.str (naive_summary t 3)),
        ("length", Json.num (pySplit (naive_summary t 3).data).length),
        ("max_sentences", Json.num 3)], 200)) ∧
    (∀ (t : String) (v : JVal), t ≠ "" → pyToInt v = none →
      summarize ⟨some t, some v⟩ =
      (Json.obj [("summary", Json.str (naive_summary t 3)),
        ("length", Json.num (pySplit (naive_summary t 3).data).length),
        ("max_sentences", Json.num 3)], 200)) ∧
    (∀ (t : String) (v : JVal) (n : Int), t ≠ "" → pyToInt v = some n →
      summarize ⟨some t, some v⟩ =
      (Json.obj [("summary", Json.str (naive_summary t n)),
        ("length", Json.num (pySplit (naive_summary t n).data).length),
        ("max_sentences", Json.num n)], 200)) := by
  refine ⟨fun ms => rfl, fun ms => rfl, ?_, ?_, ?_⟩
  · intro t ht; simp [summarize, ht]
  · intro t v ht hv; simp [summarize, ht, hv]
  · intro t v n ht hv; simp [summarize, ht, hv]

theorem summarize_validation_and_coercion_witness :
    ("Hi. There." : String) ≠ "" ∧
    pyToInt (JVal.jstr "abc") = none ∧
    pyToInt (JVal.jstr "2") = some 2 ∧
    pyToInt (JVal.jstr "1_000") = some 1000 ∧
    pyToInt (JVal.jfloat 5 (-1)) = some 2 ∧
    pyToInt JVal.jnan = none ∧
    summarize ⟨some "Hi. There.", none⟩ =
      (Json.obj [("summary", Json.str (naive_summary "Hi. There." 3)),
        ("length", Json.num (pySplit (naive_summary "Hi. There." 3).data).length),
        ("max_sentences", Json.num 3)], 200) ∧
    summarize ⟨some "Hi. There.", some (JVal.jstr "abc")⟩ =
      (Json.obj [("summary", Json.str (naive_summary "Hi. There." 3)),
        ("length", Json.num (pySplit (naive_summary "Hi. There." 3).data).length),
        ("max_sentences", Json.num 3)], 200) ∧
    summarize ⟨some "Hi. There.", some (JVal.jstr "2")⟩ =
      (Json.obj [("summary", Json.str (naive_summary "Hi. There." 2)),
        ("length", Json.num (pySplit (naive_summary "Hi. There." 2).data).length),
        ("max_sentences", Json.num 2)], 200) ∧
    summarize ⟨some "Hi. There.", some (JVal.jstr "1_000")⟩ =
      (Json.obj [("summary", Json.str (naive_summary "Hi. There." 1000)),
        ("length", Json.num (pySplit (naive_summary "Hi. There." 1000).data).length),
        ("max_sentences", Json.num 1000)], 200) ∧
    summarize ⟨some "Hi. There.", some (JVal.jfloat 5 (-1))⟩ =
      (Json.obj [("summary", Json.str (naive_summary "Hi. There." 2)),
        ("length", Json.num (pySplit (naive_summary "Hi. There." 2).data).length),
        ("max_sentences", Json.num 2)], 200) ∧
    summarize ⟨some "Hi. There.", some JVal.jnan⟩ =
      (Json.obj [("summary", Json.str (naive_summary "Hi. There." 3)),
        ("length", Json.num (pySplit (naive_summary "Hi. There." 3).data).length),
        ("max_sentences", Json.num 3)], 200) :=
  ⟨by decide, by decide, by decide, by decide, by decide, by decide,
    summarize_validation_and_coercion.2.2.1 "Hi. There." (by decide),
    summarize_validation_and_coercion.2.2.2.1 "Hi. There." (JVal.jstr "abc")
      (by decide) (by decide),
    summarize_validation_and_coercion.2.2.2.2 "Hi. There." (JVal.jstr "2") 2
      (by decide) (by decide),
    summarize_validation_and_coercion.2.2.2.2 "Hi. There." (JVal.jstr "1_000") 1000
      (by decide) (by decide),
    summarize_validation_and_coercion.2.2.2.2 "Hi. There." (JVal.jfloat 5 (-1)) 2
      (by decide) (by decide),
    summarize_validation_and_coercion.2.2.2.1 "Hi. There." JVal.jnan
      (by decide) (by decide)⟩

/-- C10: with nonempty text, a coerced limit of 0 yields a 200 response
with empty summary and length 0; a negative coerced limit `-k` yields a
200 response whose summary joins all sentence units except the last `k`
(Python negative-slice semantics), rather than being rejected. -/
theorem summarize_nonpositive_limits :
    (∀ (t : String) (v : JVal), t ≠ "" → pyToInt v = some 0 →
      summarize ⟨some t, some v⟩ =
        (Json.obj [("summary", Json.str ""), ("length", Json.num 0),
          ("max_sentences", Json.num 0)], 200)) ∧
    (∀ (t : String) (v : JVal) (k : Nat), t ≠ "" → 0 < k →
      pyToInt v = some (-(k : Int)) →
      summarize ⟨some t, some v⟩ =
        (Json.obj [
          ("summary", Json.str (String.mk (joinSpace
            ((splitSentences (pyStrip t.data)).take
              ((splitSentences (pyStrip t.data)).length - k))))),
          ("length", Json.num (pySplit (String.mk (joinSpace
            ((splitSentences (pyStrip t.data)).take
              ((splitSentences (pyStrip t.data)).length - k)))).data).length),
          ("max_sentences", Json.num (-(k : Int)))], 200)) := by
  constructor
  · intro t v ht hv
    simp [summarize, ht, hv, naive_summary_zero, pySplit, pySplitAux]
  · intro t v k ht hk hv
    simp [summarize, ht, hv, naive_summary_neg t k hk]

theorem summarize_nonpositive_limits_witness :
    ("A. B. C." : String) ≠ "" ∧
    pyToInt (JVal.jint 0) = some 0 ∧ (0 : Nat) < 1 ∧
    pyToInt (JVal.jint (-1)) = some (-((1 : Nat) : Int)) ∧
    summarize ⟨some "A. B. C.", some (JVal.jint 0)⟩ =
      (Json.obj [("summary", Json.str ""), ("length", Json.num 0),
        ("max_sentences", Json.num 0)], 200) ∧
    summarize ⟨some "A. B. C.", some (JVal.jint (-1))⟩ =
      (Json.obj [
        ("summary", Json.str (String.mk (joinSpace
          ((splitSentences (pyStrip "A. B. C.".data)).take
            ((splitSentences (pyStrip "A. B. C.".data)).length - 1))))),
        ("length", Json.num (pySplit (String.mk (joinSpace
          ((splitSentences (pyStrip "A. B. C.".data)).take
            ((splitSentences (pyStrip "A. B. C.".data)).length - 1)))).data).length),
        ("max_sentences", Json.num (-((1 : Nat) : Int)))], 200) :=
  ⟨by decide, by decide, by decide, by decide,
    summarize_nonpositive_limits.1 "A. B. C." (JVal.jint 0) (by decide) (by decide),
    summarize_nonpositive_limits.2 "A. B. C." (JVal.jint (-1)) 1
      (by decide) (by decide) (by decide)⟩

theorem collapseRuns_nil : collapseRuns [] = [] := by
  simp [collapseRuns]

theorem collapseRuns_cons_of_space (c : Char) (rest : List Char)
    (hc : isPySpace c = true) :
    collapseRuns (c :: rest) =
      ' ' :: collapseRuns (rest.dropWhile isPySpace) := by
  rw [collapseRuns]
  simp [hc]

theorem collapseRuns_cons_of_not_space (c : Char) (rest : List Char)
    (hc : ¬ isPySpace c = true) :
    collapseRuns (c :: rest) = c :: collapseRuns rest := by
  rw [collapseRuns]
  simp [hc]

theorem rstrip_cons_of_not_space (c : Char) (rest : List Char)
    (hc : ¬ isPySpace c = true) : rstrip (c :: rest) = c :: rstrip rest := by
  simp only [rstrip]
  rw [if_neg]
  simp [hc]

theorem rstrip_cons_of_nil (c : Char) (rest : List Char)
    (hc : isPySpace c = true) (h0 : rstrip rest = []) :
    rstrip (c :: rest) = [] := by
  simp only [rstrip]
  rw [if_pos]
  simp [h0, hc]

theorem rstrip_cons_of_ne_nil (c : Char) (rest : List Char)
    (h0 : rstrip rest ≠ []) : rstrip (c :: rest) = c :: rstrip rest := by
  simp only [rstrip]
  rw [if_neg]
  simp [h0]

theorem rstrip_eq_nil_iff (l : List Char) :
    rstrip l = [] ↔ ∀ c ∈ l, isPySpace c := by
  induction l with
  | nil => simp [rstrip]
  | cons c rest ih =>
    constructor
    · intro h
      by_cases h0 : rstrip rest = []
      · by_cases hc : isPySpace c
        · intro x hx
          rcases List.mem_cons.mp hx with rfl | hx
          · exact hc
          · exact (ih.mp h0) x hx
        · rw [rstrip_cons_of_not_space c rest hc] at h
          exact absurd h (List.cons_ne_nil _ _)
      · rw [rstrip_cons_of_ne_nil c rest h0] at h
        exact absurd h (List.cons_ne_nil _ _)
    · intro h
      exact rstrip_cons_of_nil c rest (h c (List.mem_cons_self c rest))
        (ih.mpr (fun x hx => h x (List.mem_cons_of_mem c hx)))

theorem pySplitAux_ne_nil_of_acc (l : List Char) :
    ∀ acc : List Char, acc ≠ [] → pySplitAux l acc ≠ [] := by
  induction l with
  | nil =>
    intro acc h
    simp [pySplitAux, h]
  | cons c rest ih =>
    intro acc h
    simp only [pySplitAux]
    split
    · rw [if_neg (by simp [h])]
      exact List.cons_ne_nil _ _
    · exact ih (c :: acc) (List.cons_ne_nil _ _)

theorem pySplitAux_cons_space_nil_acc (c : Char) (rest : List Char)
    (hc : isPySpace c = true) :
    pySplitAux (c :: rest) [] = pySplitAux rest [] := by
  simp [pySplitAux, hc]

theorem pySplitAux_cons_space_ne_acc (c : Char) (rest : List Char)
    (acc : List Char) (hc : isPySpace c = true) (hacc : acc ≠ []) :
    pySplitAux (c :: rest) acc = acc.reverse :: pySplitAux rest [] := by
  simp only [pySplitAux, if_pos hc]
  rw [if_neg]
  simp [hacc]

theorem pySplitAux_cons_not_space (c : Char) (rest : List Char)
    (acc : List Char) (hc : ¬ isPySpace c = true) :
    pySplitAux (c :: rest) acc = pySplitAux rest (c :: acc) := by
  simp [pySplitAux, hc]

theorem pySplitAux_nil_iff (l : List Char) :
    pySplitAux l [] = [] ↔ ∀ c ∈ l, isPySpace c := by
  induction l with
  | nil => simp [pySplitAux]
  | cons c rest ih =>
    constructor
    · intro h
      by_cases hc : isPySpace c
      · rw [pySplitAux_cons_space_nil_acc c rest hc] at h
        intro x hx
        rcases List.mem_cons.mp hx with rfl | hx
        · exact hc
        · exact ih.mp h x hx
      · rw [pySplitAux_cons_not_space c rest [] hc] at h
        exact absurd h (pySplitAux_ne_nil_of_acc rest [c] (List.cons_ne_nil _ _))
    · intro h
      rw [pySplitAux_cons_space_nil_acc c rest (h c (List.mem_cons_self c rest))]
      exact ih.mpr (fun x hx => h x (List.mem_cons_of_mem c hx))

theorem dropWhile_rstrip_comm (l : List Char) :
    List.dropWhile isPySpace (rstrip l) = rstrip (List.dropWhile isPySpace l) := by
  induction l with
  | nil => simp [rstrip]
  | cons c rest ih =>
    by_cases hc : isPySpace c
    · by_cases h0 : rstrip rest = []
      · rw [rstrip_cons_of_nil c rest hc h0]
        have hall : ∀ x ∈ rest, isPySpace x := (rstrip_eq_nil_iff rest).mp h0
        have hdrop : List.dropWhile isPySpace rest = [] :=
          List.dropWhile_eq_nil_iff.mpr (by intro x hx; simpa using hall x hx)
        simp [List.dropWhile_cons, hc, hdrop, rstrip]
      · rw [rstrip_cons_of_ne_nil c rest h0]
        rw [List.dropWhile_cons_of_pos hc, ih]
        rw [List.dropWhile_cons_of_pos hc]
    · rw [rstrip_cons_of_not_space c rest hc]
      rw [List.dropWhile_cons_of_neg hc, List.dropWhile_cons_of_neg hc]
      exact (rstrip_cons_of_not_space c rest hc).symm

theorem joinSpace_cons_of_ne (w : List Char) (ws : List (List Char))
    (h : ws ≠ []) : joinSpace (w :: ws) = w ++ ' ' :: joinSpace ws := by
  cases ws with
  | nil => exact absurd rfl h
  | cons x xs => rfl

/-- The refinement at the heart of the `strip` mode:
`" ".join(l.split())` trims both ends and collapses every internal
whitespace run to one space. The two conjuncts track the `pySplitAux`
accumulator. -/
theorem pySplitAux_join_collapse :
    ∀ (n : Nat) (l : List Char), l.length ≤ n →
      (joinSpace (pySplitAux l []) =
        collapseRuns (rstrip (l.dropWhile isPySpace))) ∧
      (∀ acc : List Char, acc ≠ [] →
        joinSpace (pySplitAux l acc) = acc.reverse ++ collapseRuns (rstrip l)) := by
  intro n
  induction n with
  | zero =>
    intro l hl
    have : l = [] := List.length_eq_zero.mp (Nat.le_zero.mp hl)
    subst this
    refine ⟨by simp [pySplitAux, joinSpace, rstrip, collapseRuns_nil], ?_⟩
    intro acc h
    simp [pySplitAux, h, joinSpace, rstrip, collapseRuns_nil]
  | succ n ih =>
    intro l hl
    cases l with
    | nil =>
      refine ⟨by simp [pySplitAux, joinSpace, rstrip, collapseRuns_nil], ?_⟩
      intro acc h
      simp [pySplitAux, h, joinSpace, rstrip, collapseRuns_nil]
    | cons c rest =>
      have hrest : rest.length ≤ n := by
        simp only [List.length_cons] at hl; omega
      constructor
      · by_cases hc : isPySpace c
        · rw [pySplitAux_cons_space_nil_acc c rest hc, (ih rest hrest).1]
          rw [List.dropWhile_cons_of_pos hc]
        · rw [pySplitAux_cons_not_space c rest [] hc]
          rw [(ih rest hrest).2 [c] (List.cons_ne_nil _ _)]
          rw [List.dropWhile_cons_of_neg hc]
          rw [rstrip_cons_of_not_space c rest hc]
          rw [collapseRuns_cons_of_not_space c (rstrip rest) hc]
          rfl
      · intro acc hacc
        by_cases hc : isPySpace c
        · rw [pySplitAux_cons_space_ne_acc c rest acc hc hacc]
          by_cases h0 : rstrip rest = []
          · have hall : ∀ x ∈ rest, isPySpace x := (rstrip_eq_nil_iff rest).mp h0
            have hX : pySplitAux rest [] = [] := (pySplitAux_nil_iff rest).mpr hall
            rw [hX, rstrip_cons_of_nil c rest hc h0, collapseRuns_nil]
            simp [joinSpace]
          · have hX : pySplitAux rest [] ≠ [] := by
              intro h
              exact h0 ((rstrip_eq_nil_iff rest).mpr ((pySplitAux_nil_iff rest).mp h))
            rw [joinSpace_cons_of_ne _ _ hX, (ih rest hrest).1]
            rw [rstrip_cons_of_ne_nil c rest h0]
            rw [collapseRuns_cons_of_space c (rstrip rest) hc]
            rw [dropWhile_rstrip_comm rest]
        · rw [pySplitAux_cons_not_space c rest acc hc]
          rw [(ih rest hrest).2 (c :: acc) (List.cons_ne_nil _ _)]
          rw [rstrip_cons_of_not_space c rest hc]
          rw [collapseRuns_cons_of_not_space c (rstrip rest) hc]
          simp

/-- `" ".join(l.split()) = collapseWs l`: the code's strip-mode
expression equals the spec's description of it. -/
theorem join_pySplit_eq_collapseWs (l : List Char) :
    joinSpace (pySplit l) = collapseWs l :=
  (pySplitAux_join_collapse l.length l (Nat.le_refl _)).1

/-- C3: `POST /transform` compares the lowercased mode: `upper` returns
the uppercased text, `lower` the lowercased text, `strip` the text with
internal whitespace runs collapsed to single spaces and both ends
trimmed (`collapseWs`); any other mode yields status 400. On success
the body carries the original text, the result and the mode used;
`text` defaults to `""` and `mode` defaults to `"upper"`. -/
theorem transform_modes :
    (∀ (S m : String), pyLowerS m = "upper" → transform ⟨some S, some m⟩ =
      (Json.obj [("original", Json.str S), ("result", Json.str (pyUpperS S)),
        ("mode", Json.str "upper")], 200)) ∧
    (∀ (S m : String), pyLowerS m = "lower" → transform ⟨some S, some m⟩ =
      (Json.obj [("original", Json.str S), ("result", Json.str (pyLowerS S)),
        ("mode", Json.str "lower")], 200)) ∧
    (∀ (S m : String), pyLowerS m = "strip" → transform ⟨some S, some m⟩ =
      (Json.obj [("original", Json.str S),
        ("result", Json.str (String.mk (collapseWs S.data))),
        ("mode", Json.str "strip")], 200)) ∧
    (∀ (S m : String), pyLowerS m ≠ "upper" → pyLowerS m ≠ "lower" →
      pyLowerS m ≠ "strip" →
      transform ⟨some S, some m⟩ =
        (Json.obj [("error", Json.str "invalid mode")], 400)) ∧
    (∀ S : String, transform ⟨some S, none⟩ = transform ⟨some S, some "upper"⟩) ∧
    (∀ mo : Option String, transform ⟨none, mo⟩ = transform ⟨some "", mo⟩) := by
  refine ⟨?_, ?_, ?_, ?_, ?_, ?_⟩
  · intro S m hm; simp [transform, hm]
  · intro S m hm; simp [transform, hm]
  · intro S m hm
    simp [transform, hm, ← join_pySplit_eq_collapseWs]
  · intro S m h1 h2 h3; simp [transform, h1, h2, h3]
  · intro S; rfl
  · intro mo; rfl

theorem transform_modes_witness :
    pyLowerS "UPPER" = "upper" ∧ pyLowerS "Lower" = "lower" ∧
    pyLowerS "strip" = "strip" ∧
    pyLowerS "shout" ≠ "upper" ∧ pyLowerS "shout" ≠ "lower" ∧
    pyLowerS "shout" ≠ "strip" ∧
    transform ⟨some "a b", some "UPPER"⟩ =
      (Json.obj [("original", Json.str "a b"), ("result", Json.str (pyUpperS "a b")),
        ("mode", Json.str "upper")], 200) ∧
    transform ⟨some "A B", some "Lower"⟩ =
      (Json.obj [("original", Json.str "A B"), ("result", Json.str (pyLowerS "A B")),
        ("mode", Json.str "lower")], 200) ∧
    transform ⟨some "  a   b ", some "strip"⟩ =
      (Json.obj [("original", Json.str "  a   b "),
        ("result", Json.str (String.mk (collapseWs "  a   b ".data))),
        ("mode", Json.str "strip")], 200) ∧
    transform ⟨some "x", some "shout"⟩ =
      (Json.obj [("error", Json.str "invalid mode")], 400) :=
  ⟨rfl, rfl, rfl, by decide, by decide, by decide,
    transform_modes.1 "a b" "UPPER" rfl,
    transform_modes.2.1 "A B" "Lower" rfl,
    transform_modes.2.2.1 "  a   b " "strip" rfl,
    transform_modes.2.2.2.1 "x" "shout" (by decide) (by decide) (by decide)⟩

end FlaskChief
